import Mathlib

/-!
Shallow embedding of the core of `Filterer.py` (pyqt-text-filterer).

Text is modelled as `List Char` (Python `str`); the GUI state of
`MainWindow` is modelled as the record `PyState` holding exactly the
observable engine state: `textfile_data`, `encoding`, the display text,
the filter line content, the enabled flags and the path label.
File contents reach the engine through a `decode` oracle
(`encoding label → Option text`), since the codec machinery itself is
outside the repository; everything after decoding follows the source.
-/

abbrev Str := List Char

/-- Python `str.lower()` on our character model (per-character lowercasing). -/
def lowerStr (t : Str) : Str := t.map Char.toLower

/-- Python `needle in hay` for strings: contiguous substring containment. -/
def containsSub (needle : Str) : Str → Bool
  | [] => needle.isEmpty
  | h :: t => needle.isPrefixOf (h :: t) || containsSub needle t

/-- The match test of `filter_display`: `filter_text_data.lower() in i.lower()`. -/
def matchesQuery (q i : Str) : Bool := containsSub (lowerStr q) (lowerStr i)

/-- The filtering core of `MainWindow.filter_display` (Filterer.py:234-250),
at the level of the list of lines: with an empty query the full line list is
shown, otherwise the list comprehension
`[i for i in self.textfile_data if filter_text_data.lower() in i.lower()]`. -/
def filter_display (lines : List Str) (q : Str) : List Str :=
  if q = [] then lines
  else lines.filter (fun i => matchesQuery q i)

/-- Universal-newlines translation done by `io.open(..., newline=None)` when
reading: `\r\n` and lone `\r` in the decoded character stream become `\n`. -/
def univNewlines : List Char → List Char
  | [] => []
  | [a] => if a = '\r' then ['\n'] else [a]
  | a :: b :: rest =>
    if a = '\r' then
      if b = '\n' then '\n' :: univNewlines rest
      else '\n' :: univNewlines (b :: rest)
    else a :: univNewlines (b :: rest)

/-- Split a character stream into lines keeping the `\n` terminators, as
`readlines()` does after newline translation: every line ends with `\n`
except possibly the last. -/
def splitLines : List Char → List Str
  | [] => []
  | a :: t =>
    if a = '\n' then ['\n'] :: splitLines t
    else
      match splitLines t with
      | [] => [[a]]
      | l :: ls => (a :: l) :: ls

/-- `f.readlines()` on a text file whose decoded character stream is
`decoded`: universal-newlines translation followed by splitting. -/
def readlines (decoded : Str) : List Str := splitLines (univNewlines decoded)

/-- Python `''.join(lines)`. -/
def joinL (ls : List Str) : Str := ls.flatten

/-- On writing with `io.open(..., "w")` (newline=None), every `\n` character
is translated to `os.linesep`; other characters are written unchanged. -/
def translateNl (sep : Str) (t : Str) : Str :=
  t.flatMap (fun ch => if ch = '\n' then sep else [ch])

/-- The encoding label "utf-8" used by the fallback in `open_file`. -/
def utf8 : Str := ['u', 't', 'f', '-', '8']

/-- `io.open(path, encoding=e)` uses the locale preferred encoding when
`e` is `None` (`self.encoding` may be `None` when chardet found nothing). -/
def effectiveEncoding (locale : Str) (e : Option Str) : Str := e.getD locale

/-- `file_path.replace('/', '\\')` from the end of `open_file`. -/
def replaceSlashes (p : Str) : Str := p.map (fun c => if c = '/' then '\\' else c)

/-- Python exceptions that the modelled paths can raise: a decode failure
from the second `io.open` attempt, and the `ValueError` from `max()` on an
empty sequence. -/
inductive PyErr where
  | decodeError
  | valueError
deriving DecidableEq

/-- The observable state of `MainWindow`: loaded lines (`None` before any
load), `self.encoding` (`None` initially), the display text, the filter
line-edit text, the enabled flags of the three widgets, and the path label. -/
structure PyState where
  textfile_data : Option (List Str)
  encoding : Option Str
  displayText : Str
  line_edit : Str
  filter_enabled : Bool
  line_edit_enabled : Bool
  display_enabled : Bool
  open_file_path_label : Str
deriving DecidableEq

/-- The initial state built by `MainWindow.__init__`: no data, encoding
`None`, widgets disabled, everything empty. -/
def initState : PyState :=
  { textfile_data := none
    encoding := none
    displayText := []
    line_edit := []
    filter_enabled := false
    line_edit_enabled := false
    display_enabled := false
    open_file_path_label := [] }

/-- `MainWindow.open_file` (Filterer.py:252-286), with the chosen path, the
chardet result for the file and the decoding of the file's bytes passed as
oracles.  Mirrors the source order: nothing happens on an empty path;
`self.encoding` is assigned the detection result first; the first decode
attempt uses that encoding (locale default when it is `None`); on failure
the file is re-read as UTF-8, and a second failure propagates; then
`max(..., key=len)` raises `ValueError` on an empty line list before the
display is updated; otherwise the display is set and, the line list being
non-empty, the widgets are enabled and the path label set (the disabling
else-branch is kept as in the source).  GUI-geometry effects (resize,
focus) have no observable engine state and are omitted. -/
def open_file (locale path : Str) (detect : Option Str)
    (decode : Str → Option Str) (s : PyState) : PyState × Option PyErr :=
  if path = [] then (s, none)
  else
    let data? :=
      match decode (effectiveEncoding locale detect) with
      | some t => some t
      | none => decode utf8
    match data? with
    | none => ({ s with encoding := detect }, some PyErr.decodeError)
    | some t =>
      let lines := readlines t
      let s2 := { s with encoding := detect, textfile_data := some lines }
      match lines with
      | [] => (s2, some PyErr.valueError)
      | _ :: _ =>
        let s3 := { s2 with displayText := joinL lines }
        let s4 :=
          if lines.isEmpty then
            { s3 with filter_enabled := false, line_edit_enabled := false }
          else
            { s3 with filter_enabled := true, line_edit_enabled := true,
                      display_enabled := true }
        ({ s4 with open_file_path_label := replaceSlashes path }, none)

/-- `MainWindow.save_file` (Filterer.py:288-297): on a non-empty chosen
path, writes `self.display.toPlainText()` with `io.open(..., "w",
encoding=self.encoding)`; with newline=None every `\n` is translated to
`os.linesep` (`sep`).  The result records the written character stream and
the encoding label used, `none` when the dialog was cancelled. -/
def save_file (sep savePath : Str) (s : PyState) : PyState × Option (Str × Option Str) :=
  if savePath = [] then (s, none)
  else (s, some (translateNl sep s.displayText, s.encoding))

/-- `MainWindow.close_file` (Filterer.py:299-307): clears the line edit, the
display and the path label and disables the three widgets.  It is a pure
state transform (no file oracle appears), and it touches neither
`self.textfile_data` nor `self.encoding`. -/
def close_file (s : PyState) : PyState :=
  { s with line_edit := []
           displayText := []
           filter_enabled := false
           line_edit_enabled := false
           display_enabled := false
           open_file_path_label := [] }

/-- A concrete document-loaded state (two lines loaded as UTF-8, display
showing both), used to evaluate the engine operations at explicit inputs. -/
def loadedState : PyState :=
  { textfile_data := some [['a', '\n'], ['b', '\n']]
    encoding := some utf8
    displayText := ['a', '\n', 'b', '\n']
    line_edit := []
    filter_enabled := true
    line_edit_enabled := true
    display_enabled := true
    open_file_path_label := ['p'] }

example : filter_display [['a','\n'], ['B','\n'], []] ['b'] = [['B','\n']] := by decide
example : readlines ['a', '\r', '\n', 'b'] = [['a','\n'], ['b']] := by decide
example : univNewlines ['a', '\r'] = ['a', '\n'] := by decide
example : translateNl ['\r','\n'] ['a','\n'] = ['a','\r','\n'] := by decide
example : joinL (readlines ['x','\n','y']) = ['x','\n','y'] := by decide

/-! Helper lemmas about the embedded text operations. -/

theorem containsSub_nil (hay : Str) : containsSub [] hay = true := by
  induction hay with
  | nil => rfl
  | cons h t ih => simp [containsSub, ih, List.isPrefixOf]

theorem matchesQuery_nil (i : Str) : matchesQuery [] i = true := by
  simp [matchesQuery, lowerStr, containsSub_nil]

theorem filter_display_eq_filter (lines : List Str) (q : Str) :
    filter_display lines q = lines.filter (fun i => matchesQuery q i) := by
  by_cases hq : q = []
  · subst hq
    simp [filter_display, matchesQuery_nil]
  · simp [filter_display, hq]

theorem univNewlines_cons (a : Char) (ha : a ≠ '\r') (w : Str) :
    univNewlines (a :: w) = a :: univNewlines w := by
  cases w <;> simp [univNewlines, ha]

theorem univNewlines_crlf_cons (w : Str) :
    univNewlines ('\r' :: '\n' :: w) = '\n' :: univNewlines w := by
  simp [univNewlines]

theorem univNewlines_cr_cons (b : Char) (hb : b ≠ '\n') (rest : Str) :
    univNewlines ('\r' :: b :: rest) = '\n' :: univNewlines (b :: rest) := by
  simp [univNewlines, hb]

theorem noCR_univNewlines (c : Str) : '\r' ∉ univNewlines c := by
  induction c using univNewlines.induct with
  | case1 => simp [univNewlines]
  | case2 => simp [univNewlines]
  | case3 a ha => simp [univNewlines, ha, Ne.symm ha]
  | case4 rest ih =>
    simp only [univNewlines_crlf_cons, List.mem_cons]
    rintro (h | h)
    · exact absurd h.symm (by decide)
    · exact ih h
  | case5 b rest hb ih =>
    rw [univNewlines_cr_cons b hb rest]
    simp only [List.mem_cons]
    rintro (h | h)
    · exact absurd h.symm (by decide)
    · exact ih h
  | case6 a b rest ha ih =>
    simp only [univNewlines_cons a ha, List.mem_cons]
    rintro (h | h)
    · exact ha h.symm
    · exact ih h

theorem univNewlines_id_of_noCR (c : Str) (h : '\r' ∉ c) :
    univNewlines c = c := by
  induction c with
  | nil => rfl
  | cons a t ih =>
    have ha : a ≠ '\r' := fun hc => h (hc ▸ List.mem_cons_self a t)
    rw [univNewlines_cons a ha, ih (fun hc => h (List.mem_cons_of_mem a hc))]

theorem translateNl_cons_nl (sep : Str) (t : Str) :
    translateNl sep ('\n' :: t) = sep ++ translateNl sep t := by
  simp [translateNl]

theorem translateNl_cons_other (sep : Str) (a : Char) (t : Str) (ha : a ≠ '\n') :
    translateNl sep (a :: t) = a :: translateNl sep t := by
  simp [translateNl, ha]

theorem translateNl_lf (t : Str) : translateNl ['\n'] t = t := by
  induction t with
  | nil => rfl
  | cons a r ih =>
    by_cases ha : a = '\n'
    · subst ha
      rw [translateNl_cons_nl, ih]
      rfl
    · rw [translateNl_cons_other _ _ _ ha, ih]

theorem univNewlines_translateNl (sep : Str) (x : Str)
    (hsep : sep = ['\n'] ∨ sep = ['\r', '\n']) (hx : '\r' ∉ x) :
    univNewlines (translateNl sep x) = x := by
  rcases hsep with hsep | hsep
  · rw [hsep, translateNl_lf, univNewlines_id_of_noCR x hx]
  · subst hsep
    induction x with
    | nil => rfl
    | cons a t ih =>
      have ha : a ≠ '\r' := fun hc => hx (hc ▸ List.mem_cons_self a t)
      have ht : '\r' ∉ t := fun hc => hx (List.mem_cons_of_mem a hc)
      by_cases han : a = '\n'
      · subst han
        rw [translateNl_cons_nl]
        simp only [List.cons_append, List.nil_append]
        rw [univNewlines_crlf_cons, ih ht]
      · rw [translateNl_cons_other _ _ _ han, univNewlines_cons a ha, ih ht]

theorem joinL_splitLines (c : Str) : joinL (splitLines c) = c := by
  induction c with
  | nil => rfl
  | cons a t ih =>
    by_cases ha : a = '\n'
    · subst ha
      simp [splitLines, joinL] at *
      exact ih
    · simp only [splitLines, if_neg ha]
      cases hs : splitLines t with
      | nil =>
        have : t = [] := by
          have := ih
          rw [hs] at this
          simpa [joinL] using this.symm
        simp [joinL, this]
      | cons l ls =>
        rw [hs] at ih
        simp only [joinL, List.flatten_cons, List.cons_append] at *
        rw [ih]

theorem mem_of_mem_splitLines {ch : Char} {l x : Str}
    (hl : l ∈ splitLines x) (hch : ch ∈ l) : ch ∈ x := by
  have : ch ∈ joinL (splitLines x) := by
    simp only [joinL, List.mem_flatten]
    exact ⟨l, hl, hch⟩
  rwa [joinL_splitLines] at this

theorem noCR_readlines {l : Str} (c : Str) (hl : l ∈ readlines c) :
    '\r' ∉ l := by
  intro hch
  exact noCR_univNewlines c (mem_of_mem_splitLines hl hch)

/-! Lemmas about the state-level operations. -/

theorem open_file_textfile_data_of_decoded (locale path : Str)
    (detect : Option Str) (decode : Str → Option Str) (s : PyState) (t : Str)
    (hp : path ≠ [])
    (h : decode (effectiveEncoding locale detect) = some t ∨
      (decode (effectiveEncoding locale detect) = none ∧ decode utf8 = some t)) :
    (open_file locale path detect decode s).1.textfile_data =
      some (readlines t) := by
  rcases h with h | ⟨h1, h2⟩
  · simp only [open_file, if_neg hp, h]
    cases hrl : readlines t <;> simp [hrl]
  · simp only [open_file, if_neg hp, h1, h2]
    cases hrl : readlines t <;> simp [hrl]

theorem open_file_success_first (locale path : Str) (detect : Option Str)
    (decode : Str → Option Str) (s : PyState) (t : Str)
    (hp : path ≠ []) (hd : decode (effectiveEncoding locale detect) = some t)
    (hne : readlines t ≠ []) :
    (open_file locale path detect decode s).1 =
      { s with encoding := detect
               textfile_data := some (readlines t)
               displayText := joinL (readlines t)
               filter_enabled := true
               line_edit_enabled := true
               display_enabled := true
               open_file_path_label := replaceSlashes path } := by
  obtain ⟨x, xs, hrl⟩ := List.exists_cons_of_ne_nil hne
  simp [open_file, if_neg hp, hd, hrl]

theorem open_file_double_failure (locale path : Str) (detect : Option Str)
    (decode : Str → Option Str) (s : PyState)
    (hp : path ≠ [])
    (h1 : decode (effectiveEncoding locale detect) = none)
    (h2 : decode utf8 = none) :
    open_file locale path detect decode s =
      ({ s with encoding := detect }, some PyErr.decodeError) := by
  simp [open_file, if_neg hp, h1, h2]

theorem readlines_roundtrip (sep c : Str)
    (hsep : sep = ['\n'] ∨ sep = ['\r', '\n']) :
    readlines (translateNl sep (joinL (readlines c))) = readlines c := by
  have h1 : joinL (readlines c) = univNewlines c :=
    joinL_splitLines (univNewlines c)
  rw [h1]
  show splitLines (univNewlines (translateNl sep (univNewlines c))) = readlines c
  rw [univNewlines_translateNl sep _ hsep (noCR_univNewlines c)]
  rfl

/-! Theorems settling the claims. -/

/-- Claim C1: for every document and query, the filtering core returns
exactly the lines whose lowercase form contains the lowercase query as a
contiguous substring: the output is `List.filter` of the match test on the
input, it is a sublist of the input (order preserved, no reordering and no
duplication), every output line matches, and every matching input line is
kept (no loss). -/
theorem c1_filter_exactly_matching_sublist (lines : List Str) (q : Str) :
    filter_display lines q = lines.filter (fun i => matchesQuery q i) ∧
    (filter_display lines q).Sublist lines ∧
    (∀ i ∈ filter_display lines q, matchesQuery q i = true) ∧
    (∀ i ∈ lines, matchesQuery q i = true → i ∈ filter_display lines q) := by
  have hq := filter_display_eq_filter lines q
  refine ⟨hq, ?_, ?_, ?_⟩ <;> rw [hq]
  · exact List.filter_sublist _
  · intro i hi
    exact (List.mem_filter.1 hi).2
  · intro i hi hm
    exact List.mem_filter.2 ⟨hi, hm⟩

/-- Claim C2: filtering with the empty query is the identity on the line
list: the `if not filter_text_data` branch returns all lines unchanged. -/
theorem c2_empty_query_identity (lines : List Str) :
    filter_display lines [] = lines := by
  simp [filter_display]

/-- Claim C10: filtering is idempotent — applying the filter with a
non-empty query to its own output returns the same line list. -/
theorem c10_filter_idempotent (lines : List Str) (q : Str) (hq : q ≠ []) :
    filter_display (filter_display lines q) q = filter_display lines q := by
  simp [filter_display, hq, List.filter_filter]

/-- Witness for C10 at a concrete document and query. -/
theorem c10_filter_idempotent_witness :
    (['a'] : Str) ≠ [] ∧
      filter_display (filter_display [['a', '\n'], ['b', '\n']] ['a']) ['a'] =
        filter_display [['a', '\n'], ['b', '\n']] ['a'] :=
  ⟨by decide, c10_filter_idempotent [['a', '\n'], ['b', '\n']] ['a'] (by decide)⟩

/-- Counterexample to C3 as stated: in a document-loaded state, close_file
leaves both the loaded lines and the current encoding in place — neither is
reset to the `None` that `__init__` starts from, so the Document is not
discarded and the encoding is not reset to unknown. -/
theorem c3_counterexample :
    (close_file loadedState).textfile_data ≠ none ∧
      (close_file loadedState).encoding ≠ none := by
  decide

/-- Claim C3 (amended): close_file clears the filter line, the display text
and the path label and disables the three widgets; being a pure state
transform over no file oracle, it performs no file I/O; but it leaves
`self.textfile_data` and `self.encoding` unchanged rather than discarding
the document and resetting the encoding. -/
theorem c3_close_clears_view_only (s : PyState) :
    (close_file s).textfile_data = s.textfile_data ∧
      (close_file s).encoding = s.encoding ∧
      (close_file s).line_edit = [] ∧
      (close_file s).displayText = [] ∧
      (close_file s).filter_enabled = false ∧
      (close_file s).line_edit_enabled = false ∧
      (close_file s).display_enabled = false ∧
      (close_file s).open_file_path_label = [] := by
  simp [close_file]

/-- Counterexample to C4 as stated: a file whose decoded stream is
"a\r\n" is loaded as the single line "a\n" — the CRLF terminator is
normalized to LF by `io.open`'s universal-newlines mode, not stored
verbatim. -/
theorem c4_counterexample :
    (open_file utf8 ['p'] (some utf8) (fun _ => some ['a', '\r', '\n'])
        initState).1.textfile_data = some [['a', '\n']] ∧
      some [['a', '\n']] ≠ some [['a', '\r', '\n']] := by
  decide

/-- Claim C4 (amended): a successful load stores exactly the lines of the
universal-newlines translation of the decoded stream: concatenating the
stored lines gives the decoded text with every CRLF and lone CR replaced by
LF (so the original order and all other characters are preserved), and no
carriage return survives in any stored line. -/
theorem c4_lines_order_kept_endings_normalized (locale path c : Str)
    (detect : Option Str) (decode : Str → Option Str) (s : PyState)
    (hp : path ≠ [])
    (hd : decode (effectiveEncoding locale detect) = some c) :
    (open_file locale path detect decode s).1.textfile_data =
        some (readlines c) ∧
      joinL (readlines c) = univNewlines c ∧
      ∀ l ∈ readlines c, '\r' ∉ l := by
  refine ⟨open_file_textfile_data_of_decoded locale path detect decode s c hp
    (Or.inl hd), joinL_splitLines (univNewlines c), ?_⟩
  intro l hl
  exact noCR_readlines c hl

/-- Witness for the amended C4 at a concrete file. -/
theorem c4_lines_order_kept_endings_normalized_witness :
    (['p'] : Str) ≠ [] ∧
      (open_file utf8 ['p'] (some utf8) (fun _ => some ['a', '\r', '\n'])
          initState).1.textfile_data = some (readlines ['a', '\r', '\n']) :=
  ⟨by decide,
    (c4_lines_order_kept_endings_normalized utf8 ['p'] ['a', '\r', '\n']
      (some utf8) (fun _ => some ['a', '\r', '\n']) initState (by decide)
      rfl).1⟩

/-- Counterexample to C5 as stated: on a platform whose `os.linesep` is
CRLF, saving a display of "a\nb\n" writes "a\r\nb\r\n" — each `\n` is
translated to the native line ending, not emitted verbatim. -/
theorem c5_counterexample :
    (save_file ['\r', '\n'] ['q'] loadedState).2 =
        some (['a', '\r', '\n', 'b', '\r', '\n'], some utf8) ∧
      ['a', '\r', '\n', 'b', '\r', '\n'] ≠
        (['a', '\n', 'b', '\n'] : Str) := by
  decide

/-- Claim C5 (amended): save writes the display text with every `\n`
translated to `os.linesep` (the newline=None write translation of
`io.open`), using the current encoding label; the write is verbatim
exactly on platforms whose `os.linesep` is `\n`. -/
theorem c5_save_translates_newlines (sep savePath : Str) (s : PyState)
    (hp : savePath ≠ []) :
    (save_file sep savePath s).2 =
        some (translateNl sep s.displayText, s.encoding) ∧
      translateNl ['\n'] s.displayText = s.displayText :=
  ⟨by simp [save_file, hp], translateNl_lf _⟩

/-- Witness for the amended C5 at a concrete state and separator. -/
theorem c5_save_translates_newlines_witness :
    (['q'] : Str) ≠ [] ∧
      (save_file ['\r', '\n'] ['q'] loadedState).2 =
        some (translateNl ['\r', '\n'] loadedState.displayText,
          loadedState.encoding) :=
  ⟨by decide,
    (c5_save_translates_newlines ['\r', '\n'] ['q'] loadedState
      (by decide)).1⟩

/-- Counterexample to C6 as stated: with both decode attempts failing, the
error does surface, but the engine state is changed — `self.encoding` was
assigned the chardet result before the decode attempts, so it no longer
equals its value before the failed load. -/
theorem c6_counterexample :
    (open_file utf8 ['p'] (some ['x']) (fun _ => none) loadedState).2 =
        some PyErr.decodeError ∧
      (open_file utf8 ['p'] (some ['x']) (fun _ => none)
          loadedState).1.encoding ≠ loadedState.encoding := by
  decide

/-- Claim C6 (amended): when decoding with the detected encoding and the
UTF-8 retry both fail, the error propagates to the caller and
`self.textfile_data` is untouched (no partial Document), but
`self.encoding` has already been overwritten with the detection result,
so the engine state is not fully unchanged. -/
theorem c6_double_failure_error_encoding_changed (locale path : Str)
    (detect : Option Str) (decode : Str → Option Str) (s : PyState)
    (hp : path ≠ [])
    (h1 : decode (effectiveEncoding locale detect) = none)
    (h2 : decode utf8 = none) :
    open_file locale path detect decode s =
      ({ s with encoding := detect }, some PyErr.decodeError) :=
  open_file_double_failure locale path detect decode s hp h1 h2

/-- Witness for the amended C6 at a concrete failing decode. -/
theorem c6_double_failure_error_encoding_changed_witness :
    (['p'] : Str) ≠ [] ∧
      open_file utf8 ['p'] (some ['x']) (fun _ => none) loadedState =
        ({ loadedState with encoding := some ['x'] },
          some PyErr.decodeError) :=
  ⟨by decide,
    c6_double_failure_error_encoding_changed utf8 ['p'] (some ['x'])
      (fun _ => none) loadedState (by decide) rfl rfl⟩

/-- Counterexample to C7 as stated: detection yields no label and the
decode oracle answers "a" for every encoding except utf-8, for which it
answers "b".  The load succeeds with line "a": the first attempt used the
locale's preferred encoding (`io.open` with `encoding=None`), and the
UTF-8 decoding (which would have produced line "b") was never used. -/
theorem c7_counterexample :
    (open_file ['L'] ['p'] none
        (fun e => if e = utf8 then some ['b'] else some ['a'])
        initState).1.textfile_data = some [['a']] ∧
      some [['a']] ≠ some ([['b']] : List Str) := by
  decide

/-- Claim C7 (amended): the first decode attempt uses the detected label
when there is one and the locale's preferred encoding when detection
yields none (`io.open` semantics of `encoding=None`); UTF-8 is the
fallback only when that first attempt fails.  Whichever attempt succeeds
determines the loaded lines. -/
theorem c7_fallback_policy (locale path t : Str) (detect : Option Str)
    (decode : Str → Option Str) (s : PyState)
    (hp : path ≠ [])
    (h : decode (effectiveEncoding locale detect) = some t ∨
      (decode (effectiveEncoding locale detect) = none ∧
        decode utf8 = some t)) :
    (open_file locale path detect decode s).1.textfile_data =
      some (readlines t) :=
  open_file_textfile_data_of_decoded locale path detect decode s t hp h

/-- Witness for the amended C7: detection fails, the locale decode fails,
and the UTF-8 fallback supplies the text. -/
theorem c7_fallback_policy_witness :
    (['p'] : Str) ≠ [] ∧
      (open_file ['L'] ['p'] none
          (fun e => if e = utf8 then some ['x', '\n'] else none)
          initState).1.textfile_data = some (readlines ['x', '\n']) :=
  ⟨by decide,
    c7_fallback_policy ['L'] ['p'] ['x', '\n'] none
      (fun e => if e = utf8 then some ['x', '\n'] else none) initState
      (by decide) (Or.inr ⟨by decide, by decide⟩)⟩

/-- Claim C9: a file that decodes to zero lines makes `open_file` raise
`ValueError` at `max(..., key=len)` before completing: the error escapes
with `self.textfile_data` already set to the empty list, the display text
never updated, and every widget flag left exactly as it was — in
particular the `else` branch that would disable the widgets for an empty
file is never reached. -/
theorem c9_empty_file_value_error (locale path t : Str)
    (detect : Option Str) (decode : Str → Option Str) (s : PyState)
    (hp : path ≠ [])
    (hd : decode (effectiveEncoding locale detect) = some t)
    (hrl : readlines t = []) :
    open_file locale path detect decode s =
      ({ s with encoding := detect, textfile_data := some [] },
        some PyErr.valueError) := by
  simp [open_file, if_neg hp, hd, hrl]

/-- Claim C8: round-trip.  Load a non-empty file whose decoded stream is
`c` (first decode attempt succeeds, the "cleanly detectable" case), save
the full unfiltered view with the current encoding, reload the saved file
(whose decoded stream is then exactly the written text, again the cleanly
detectable case).  For `os.linesep` equal to LF or CRLF, the save writes
the joined loaded lines with `\n` translated to `os.linesep` under the
encoding the first load set, and the reloaded line list equals the one the
original load produced. -/
theorem c8_save_reload_roundtrip (locale1 locale2 path1 path2 savePath sep c
      : Str) (detect1 detect2 : Option Str)
    (decode1 decode2 : Str → Option Str) (s t : PyState)
    (hp1 : path1 ≠ []) (hsave : savePath ≠ []) (hp2 : path2 ≠ [])
    (hsep : sep = ['\n'] ∨ sep = ['\r', '\n'])
    (hd1 : decode1 (effectiveEncoding locale1 detect1) = some c)
    (hne : readlines c ≠ [])
    (hd2 : decode2 (effectiveEncoding locale2 detect2) =
      some (translateNl sep (joinL (readlines c)))) :
    (save_file sep savePath (open_file locale1 path1 detect1 decode1 s).1).2 =
        some (translateNl sep (joinL (readlines c)),
          (open_file locale1 path1 detect1 decode1 s).1.encoding) ∧
      (open_file locale2 path2 detect2 decode2 t).1.textfile_data =
        (open_file locale1 path1 detect1 decode1 s).1.textfile_data := by
  have h1 := open_file_success_first locale1 path1 detect1 decode1 s c hp1
    hd1 hne
  constructor
  · rw [h1]
    simp [save_file, hsave]
  · rw [open_file_textfile_data_of_decoded locale2 path2 detect2 decode2 t
      (translateNl sep (joinL (readlines c))) hp2 (Or.inl hd2), h1,
      readlines_roundtrip sep c hsep]

/-- Witness for C8: a two-line file round-tripped through a CRLF platform
separator. -/
theorem c8_save_reload_roundtrip_witness :
    readlines ['a', '\n', 'b'] ≠ [] ∧
      (open_file utf8 ['q'] (some utf8)
            (fun _ => some ['a', '\r', '\n', 'b']) initState).1.textfile_data =
        (open_file utf8 ['p'] (some utf8) (fun _ => some ['a', '\n', 'b'])
            initState).1.textfile_data :=
  ⟨by decide,
    (c8_save_reload_roundtrip utf8 utf8 ['p'] ['q'] ['o'] ['\r', '\n']
      ['a', '\n', 'b'] (some utf8) (some utf8)
      (fun _ => some ['a', '\n', 'b']) (fun _ => some ['a', '\r', '\n', 'b'])
      initState initState (by decide) (by decide) (by decide) (Or.inr rfl)
      rfl (by decide) (by decide)).2⟩

/-- Witness for C9: the empty file. -/
theorem c9_empty_file_value_error_witness :
    (['p'] : Str) ≠ [] ∧ readlines [] = ([] : List Str) ∧
      open_file utf8 ['p'] none (fun _ => some []) loadedState =
        ({ loadedState with encoding := none, textfile_data := some [] },
          some PyErr.valueError) :=
  ⟨by decide, rfl,
    c9_empty_file_value_error utf8 ['p'] [] none (fun _ => some [])
      loadedState (by decide) rfl rfl⟩
